import Mathlib

/-!
Shallow embedding of the easy_notifyer error-capture-and-dispatch pipeline
(`easy_notifyer/handlers.py` and `easy_notifyer/__init__.py`), together with
theorems settling the specification claims about it.

The transport clients (`Telegram`, `TelegramAsync`), the environment lookup
(`Env`) and the `Report` class live outside the provided sources; the wrapped
callable's outcome and the dispatch outcome are therefore parameters of the
embedding, and the `Report` construction is modelled from the specification.
-/

namespace EasyNotifyer

/-- Python exception classes relevant to the pipeline: the `BaseException`
hierarchy with the `Exception` branch used by the default filter, a few
concrete `Exception` subclasses, the library's own `ConfigError`, and the
`BaseException`-only kinds (`KeyboardInterrupt`, `SystemExit`). -/
inductive ExcKind : Type
  | baseException
  | exception
  | valueError
  | keyError
  | typeError
  | configError
  | keyboardInterrupt
  | systemExit
  deriving DecidableEq, Repr

/-- Method resolution order of each class: the class itself followed by its
ancestors, exactly as in CPython (`object` omitted, it is never a filter). -/
def ExcKind.mro : ExcKind → List ExcKind
  | .baseException => [.baseException]
  | .exception => [.exception, .baseException]
  | .valueError => [.valueError, .exception, .baseException]
  | .keyError => [.keyError, .exception, .baseException]
  | .typeError => [.typeError, .exception, .baseException]
  | .configError => [.configError, .exception, .baseException]
  | .keyboardInterrupt => [.keyboardInterrupt, .baseException]
  | .systemExit => [.systemExit, .baseException]

/-- Whether class `a` is `b` or a subclass of `b` (Python `issubclass`). -/
def ExcKind.isSubclass (a b : ExcKind) : Bool := a.mro.contains b

/-- Display name of the class, used when formatting a traceback. -/
def ExcKind.name : ExcKind → String
  | .baseException => "BaseException"
  | .exception => "Exception"
  | .valueError => "ValueError"
  | .keyError => "KeyError"
  | .typeError => "TypeError"
  | .configError => "ConfigError"
  | .keyboardInterrupt => "KeyboardInterrupt"
  | .systemExit => "SystemExit"

/-- A raised Python exception: its class and its message. -/
structure Exc where
  kind : ExcKind
  msg : String
  deriving DecidableEq, Repr

/-- The `exceptions` argument of the decorators: absent (`None`), a single
exception class, or a tuple of exception classes. -/
inductive ExcFilterParam : Type
  | nil
  | single (k : ExcKind)
  | tuple (ks : List ExcKind)
  deriving DecidableEq, Repr

/-- Python truthiness of the `exceptions` argument: `None` and the empty
tuple are falsy; classes and non-empty tuples are truthy. -/
def ExcFilterParam.isFalsy : ExcFilterParam → Bool
  | .nil => true
  | .single _ => false
  | .tuple ks => ks.isEmpty

/-- Line `exceptions = exceptions or Exception` of both decorators in
`handlers.py`: a falsy argument is replaced by the class `Exception`. -/
def resolveExceptions (p : ExcFilterParam) : ExcFilterParam :=
  if p.isFalsy then .single .exception else p

/-- The classes an `except` clause with this argument checks against. -/
def ExcFilterParam.kinds : ExcFilterParam → List ExcKind
  | .nil => []
  | .single k => [k]
  | .tuple ks => ks

/-- Python `except filter as exc` matching: the raised exception's class is
one of the filter's classes or a subclass of one of them. -/
def excMatches (filter : ExcFilterParam) (e : Exc) : Bool :=
  filter.kinds.any fun k => e.kind.isSubclass k

/-- The report value handed to the transport: `report.report` is the text
body, `report.attach` the optional attachment payload. Field names follow
the attribute accesses `report.report` and `report.attach` in
`_report_handler`. -/
structure Report where
  report : String
  attach : Option String
  deriving DecidableEq, Repr

/-- Default first line of a report, from the decorator docstrings in
`handlers.py`. -/
def defaultHeader : String := "Your program has crashed ☠️"

/-- The function-name line of the report body: the wrapped callable's
declared name on a line of its own, empty when no name was captured. -/
def funcNameLine : Option String → String
  | some n => n ++ "\n"
  | none => ""

/-- Modelled from the spec: the `Report` class of `easy_notifyer/report.py`
is not among the provided sources; this follows spec section 4.2. With
`as_attached` false the body is the header (or the default banner), a blank
line, the function-name line and the traceback text, with no attachment;
with `as_attached` true the body is the short caption (header and
function-name line) and the attachment is the full traceback text. -/
def Report.make (tback : String) (funcName : Option String)
    (header : Option String) (asAttached : Bool) : Report :=
  if asAttached then
    { report := header.getD defaultHeader ++ "\n" ++ funcNameLine funcName,
      attach := some tback }
  else
    { report := header.getD defaultHeader ++ "\n\n" ++ funcNameLine funcName ++ tback,
      attach := none }

/-- Function `_report_maker` of `handlers.py`: builds the `Report` from the
traceback text, function name, header and attachment flag. -/
def reportMaker (tback : String) (funcName : Option String)
    (header : Option String) (asAttached : Bool) : Report :=
  Report.make tback funcName header asAttached

/-- A `datetime.datetime` value, to the granularity the pipeline reads. -/
structure PyDateTime where
  year : Nat
  month : Nat
  day : Nat
  hour : Nat
  minute : Nat
  second : Nat
  microsecond : Nat
  deriving DecidableEq, Repr

/-- Python `datetime.replace(microsecond=m)`. -/
def PyDateTime.replaceMicrosecond (t : PyDateTime) (m : Nat) : PyDateTime :=
  { t with microsecond := m }

/-- Zero-padding to two digits, as `strftime` does for the numeric fields. -/
def pad2 (n : Nat) : String :=
  if n < 10 then "0" ++ toString n else toString n

/-- Zero-padding to four digits for the year field of `strftime`. -/
def pad4 (n : Nat) : String :=
  if n < 10 then "000" ++ toString n
  else if n < 100 then "00" ++ toString n
  else if n < 1000 then "0" ++ toString n
  else toString n

/-- Python `strftime` for the default filename pattern
`"%Y-%m-%d %H_%M_%S"` (the `EASY_NOTIFYER_FILENAME_DT_FORMAT` default named
in the `_get_filename` docstring). The microsecond field does not occur in
the pattern. -/
def strftimeDefaultFormat (t : PyDateTime) : String :=
  pad4 t.year ++ "-" ++ pad2 t.month ++ "-" ++ pad2 t.day ++ " "
    ++ pad2 t.hour ++ "_" ++ pad2 t.minute ++ "_" ++ pad2 t.second

/-- Function `_get_filename` of `handlers.py`: an explicit filename is
returned unchanged; otherwise the current time with the microsecond set to
zero is formatted and suffixed with `.txt`. -/
def getFilename (filename : Option String) (now : PyDateTime) : String :=
  match filename with
  | some f => f
  | none => strftimeDefaultFormat (now.replaceMicrosecond 0) ++ ".txt"

/-- The single transport-sink operation a dispatch performs: either
`bot.send_attach(msg, attach, filename)` or `bot.send_message(msg)`. -/
inductive SinkCall : Type
  | sendAttach (msg : String) (attach : String) (filename : String)
  | sendMessage (msg : String)
  deriving DecidableEq, Repr

/-- Whether the sink call is the send-with-attachment operation. -/
def SinkCall.isAttach : SinkCall → Bool
  | .sendAttach .. => true
  | .sendMessage _ => false

/-- Function `_report_handler` of `handlers.py`, as the sink call it issues:
with an attachment present it resolves the filename and calls
`send_attach` with the body as caption; otherwise it calls `send_message`
with the body. -/
def reportHandler (report : Report) (filename : Option String)
    (now : PyDateTime) : SinkCall :=
  match report.attach with
  | some a => .sendAttach report.report a (getFilename filename now)
  | none => .sendMessage report.report

/-- Function `_async_report_handler` of `handlers.py`, as the sink call it
awaits: structurally identical to `reportHandler`, with the filename
resolution offloaded through `run_sync` before the awaited transport
call. -/
def asyncReportHandler (report : Report) (filename : Option String)
    (now : PyDateTime) : SinkCall :=
  match report.attach with
  | some a => .sendAttach report.report a (getFilename filename now)
  | none => .sendMessage report.report

/-- Outcome of calling a Python callable: a returned value or a raised
exception. -/
inductive PyResult (α : Type) : Type
  | ok (v : α)
  | raised (e : Exc)
  deriving DecidableEq, Repr

/-- Observable steps of one invocation of a decorated callable, in the
order they happen: the wrapped call, report construction, the completed
dispatch attempt (with `none` for success and `some e` for a dispatch
error), and the `raise exc` re-raising the original exception. -/
inductive Event : Type
  | callFunc
  | buildReport (r : Report)
  | dispatch (r : Report) (outcome : Option Exc)
  | reraise (e : Exc)
  deriving DecidableEq, Repr

/-- Result and ordered event trace of one invocation of a decorated
callable. -/
structure WrapperRun (α : Type) : Type where
  result : PyResult α
  events : List Event
  deriving DecidableEq, Repr

/-- The traceback text `traceback.format_exc()` yields for the exception,
modelling the CPython rendering of a one-frame traceback. -/
def formatExc (e : Exc) : String :=
  "Traceback (most recent call last):\n  ...\n" ++ e.kind.name ++ ": " ++ e.msg

/-- The `wrapper` closure of `telegram_reporter` in `handlers.py`. The
wrapped callable is `f` applied to `x`; `dispatchOutcome` is the outcome of
`_report_handler` on the built report (`none` for success, `some e2` when
dispatch raises `e2`). On a matching exception the report is built and
dispatched; if dispatch succeeds, `raise exc` re-raises the original
exception, and if dispatch raises, that error propagates out of the
`except` block and `raise exc` is never reached. -/
def wrapper {α β : Type} (exceptionsParam : ExcFilterParam)
    (header : Option String) (asAttached : Bool) (funcName : String)
    (f : α → PyResult β) (dispatchOutcome : Report → Option Exc)
    (x : α) : WrapperRun β :=
  let exceptions := resolveExceptions exceptionsParam
  match f x with
  | .ok v => { result := .ok v, events := [.callFunc] }
  | .raised exc =>
    if excMatches exceptions exc then
      let tback := formatExc exc
      let report := reportMaker tback (some funcName) header asAttached
      match dispatchOutcome report with
      | none =>
        { result := .raised exc,
          events := [.callFunc, .buildReport report, .dispatch report none,
            .reraise exc] }
      | some exc2 =>
        { result := .raised exc2,
          events := [.callFunc, .buildReport report,
            .dispatch report (some exc2)] }
    else
      { result := .raised exc, events := [.callFunc] }

/-- The `wrapper` coroutine of `async_telegram_reporter` in `handlers.py`:
`await func(...)`, then on a matching exception the report is built through
`run_sync`, `_async_report_handler` is awaited to completion, and only then
does `raise exc` run; a dispatch error propagates instead of the
re-raise. -/
def asyncWrapper {α β : Type} (exceptionsParam : ExcFilterParam)
    (header : Option String) (asAttached : Bool) (funcName : String)
    (f : α → PyResult β) (dispatchOutcome : Report → Option Exc)
    (x : α) : WrapperRun β :=
  let exceptions := resolveExceptions exceptionsParam
  match f x with
  | .ok v => { result := .ok v, events := [.callFunc] }
  | .raised exc =>
    if excMatches exceptions exc then
      let tback := formatExc exc
      let report := reportMaker tback (some funcName) header asAttached
      match dispatchOutcome report with
      | none =>
        { result := .raised exc,
          events := [.callFunc, .buildReport report, .dispatch report none,
            .reraise exc] }
      | some exc2 =>
        { result := .raised exc2,
          events := [.callFunc, .buildReport report,
            .dispatch report (some exc2)] }
    else
      { result := .raised exc, events := [.callFunc] }

/-- Whether the event is a completed dispatch attempt. -/
def Event.isDispatch : Event → Bool
  | .dispatch .. => true
  | _ => false

/-- Whether the event is a report construction. -/
def Event.isBuild : Event → Bool
  | .buildReport _ => true
  | _ => false

/-- Whether the trace contains a completed dispatch attempt. -/
def dispatched (evs : List Event) : Bool := evs.any Event.isDispatch

/-- Whether the trace contains a report construction. -/
def builtReport (evs : List Event) : Bool := evs.any Event.isBuild

/-- Scan of a trace checking that every re-raise is preceded by a completed
dispatch attempt; the accumulator records whether a dispatch has been
seen. -/
def reraiseAfterDispatchAux : Bool → List Event → Bool
  | _, [] => true
  | _, Event.dispatch _ _ :: rest => reraiseAfterDispatchAux true rest
  | seen, Event.reraise _ :: rest => seen && reraiseAfterDispatchAux seen rest
  | seen, _ :: rest => reraiseAfterDispatchAux seen rest

/-- Every re-raise event of the trace comes strictly after a completed
dispatch attempt. -/
def reraiseOnlyAfterDispatch (evs : List Event) : Bool :=
  reraiseAfterDispatchAux false evs

/-- Substring relation on Python strings: the characters of `sub` occur
contiguously inside `s` (Python `sub in s`). -/
def strContains (s sub : String) : Prop := sub.data <:+: s.data

instance (s sub : String) : Decidable (strContains s sub) :=
  List.decidableInfix sub.data s.data

/-- Module-level names bound in `easy_notifyer/handlers.py`: its imports
and its six function definitions. -/
def handlersNames : List String :=
  ["functools", "traceback", "datetime", "List", "Optional", "Tuple",
   "Type", "Union", "Env", "Report", "Telegram", "TelegramAsync",
   "run_sync", "telegram_reporter", "async_telegram_reporter",
   "_get_filename", "_report_maker", "_report_handler",
   "_async_report_handler"]

/-- Names `easy_notifyer/__init__.py` line 1 imports from
`easy_notifyer.handlers`. -/
def initImportsFromHandlers : List String :=
  ["mailer_reporter", "telegram_reporter"]

/-- The `__all__` list of `easy_notifyer/__init__.py`. -/
def initAll : List String :=
  ["ConfigError", "Mailer", "Telegram", "TelegramAsync",
   "mailer_reporter", "telegram_reporter"]

/-- Outcome of a Python `from module import a, b, ...` statement. -/
inductive ImportOutcome : Type
  | ok
  | importError (name : String)
  deriving DecidableEq, Repr

/-- Python `from`-import semantics: the first requested name the module
does not define raises `ImportError` naming it; otherwise the import
succeeds. -/
def fromImport (defined names : List String) : ImportOutcome :=
  match names.find? (fun n => !defined.contains n) with
  | some n => .importError n
  | none => .ok

/-- Every class is a subclass of itself. -/
theorem ExcKind.isSubclass_self (k : ExcKind) : k.isSubclass k = true := by
  cases k <;> rfl

/-- C7: the filename generator returns an explicit name unchanged; given
none it returns the current time with the microsecond component set to
zero, formatted per the default pattern and suffixed `.txt`, and the
result is independent of the microsecond component of the clock. -/
theorem claim7_get_filename :
    (∀ (n : String) (t : PyDateTime), getFilename (some n) t = n) ∧
    (∀ t : PyDateTime,
      getFilename none t
        = strftimeDefaultFormat (t.replaceMicrosecond 0) ++ ".txt" ∧
      (t.replaceMicrosecond 0).microsecond = 0 ∧
      ∀ m : Nat, getFilename none (t.replaceMicrosecond m) = getFilename none t) :=
  ⟨fun _ _ => rfl, fun _ => ⟨rfl, rfl, fun _ => rfl⟩⟩

/-- C6: both report handlers issue the send-with-attachment sink operation
exactly when the report has an attachment — then with the body as caption,
the attachment payload and the resolved filename — and otherwise issue the
send-text operation with the body; a dispatch always issues exactly one
sink call, by the type of the handlers. -/
theorem claim6_report_handler :
    ∀ (r : Report) (fn : Option String) (now : PyDateTime),
    ((reportHandler r fn now).isAttach = r.attach.isSome ∧
     (asyncReportHandler r fn now).isAttach = r.attach.isSome) ∧
    (∀ a : String, r.attach = some a →
      reportHandler r fn now = .sendAttach r.report a (getFilename fn now) ∧
      asyncReportHandler r fn now = .sendAttach r.report a (getFilename fn now)) ∧
    (r.attach = none →
      reportHandler r fn now = .sendMessage r.report ∧
      asyncReportHandler r fn now = .sendMessage r.report) := by
  intro r fn now
  obtain ⟨b, a⟩ := r
  cases a <;>
    simp [reportHandler, asyncReportHandler, SinkCall.isAttach]

/-- Witness for C6 at a concrete report with and without attachment. -/
theorem claim6_witness :
    reportHandler ⟨"caption", some "trace"⟩ (some "r.txt") ⟨2026, 10, 12, 1, 2, 3, 0⟩
      = .sendAttach "caption" "trace" "r.txt" ∧
    reportHandler ⟨"body", none⟩ none ⟨2026, 10, 12, 1, 2, 3, 0⟩
      = .sendMessage "body" := by
  refine ⟨?_, ?_⟩
  · exact ((claim6_report_handler ⟨"caption", some "trace"⟩ (some "r.txt")
      ⟨2026, 10, 12, 1, 2, 3, 0⟩).2.1 "trace" rfl).1
  · exact ((claim6_report_handler ⟨"body", none⟩ none
      ⟨2026, 10, 12, 1, 2, 3, 0⟩).2.2 rfl).1

/-- C8: when the wrapped callable returns a value, both decorated variants
return the identical value, and the trace shows only the call — no report
is built and no dispatch occurs. -/
theorem claim8_success_passthrough :
    ∀ {α β : Type} (p : ExcFilterParam) (header : Option String)
      (aa : Bool) (fn : String) (f : α → PyResult β)
      (dout : Report → Option Exc) (x : α) (v : β),
    f x = .ok v →
    (wrapper p header aa fn f dout x).result = .ok v ∧
    (wrapper p header aa fn f dout x).events = [.callFunc] ∧
    (asyncWrapper p header aa fn f dout x).result = .ok v ∧
    (asyncWrapper p header aa fn f dout x).events = [.callFunc] := by
  intro α β p header aa fn f dout x v h
  simp [wrapper, asyncWrapper, h]

/-- Witness for C8 at a concrete returning callable. -/
theorem claim8_witness :
    (wrapper .nil none false "f" (fun _ : Unit => PyResult.ok (42 : Nat))
      (fun _ => none) ()).result = .ok 42 ∧
    (wrapper .nil none false "f" (fun _ : Unit => PyResult.ok (42 : Nat))
      (fun _ => none) ()).events = [.callFunc] := by
  have h := claim8_success_passthrough .nil none false "f"
    (fun _ : Unit => PyResult.ok (42 : Nat)) (fun _ => none) () 42 rfl
  exact ⟨h.1, h.2.1⟩

/-- C10: the package `__init__` requests the name `mailer_reporter` from
the handlers module and lists it in `__all__`, but the handlers module
binds no such name, so importing the package raises `ImportError` before
any decorator can be used. -/
theorem claim10_import_fails :
    fromImport handlersNames initImportsFromHandlers
      = .importError "mailer_reporter" ∧
    "mailer_reporter" ∈ initAll ∧
    "mailer_reporter" ∉ handlersNames := by
  decide

/-- C9: a falsy `exceptions` argument — `None` or the empty tuple — is
silently replaced by the class `Exception` in both variants (they share
`resolveExceptions`), so both variants intercept a `ValueError` under the
empty-tuple argument, and for every possible argument the resolved filter
matches at least one exception: a filter matching nothing cannot be
expressed. -/
theorem claim9_falsy_filter :
    resolveExceptions (.tuple []) = .single .exception ∧
    resolveExceptions .nil = .single .exception ∧
    dispatched (wrapper (.tuple []) none false "f"
      (fun _ : Unit => (PyResult.raised ⟨.valueError, "boom"⟩ : PyResult Nat))
      (fun _ => none) ()).events = true ∧
    dispatched (asyncWrapper (.tuple []) none false "f"
      (fun _ : Unit => (PyResult.raised ⟨.valueError, "boom"⟩ : PyResult Nat))
      (fun _ => none) ()).events = true ∧
    ∀ p : ExcFilterParam, ∃ e : Exc, excMatches (resolveExceptions p) e = true := by
  refine ⟨rfl, rfl, by decide, by decide, ?_⟩
  intro p
  cases p with
  | nil => exact ⟨⟨.exception, ""⟩, by decide⟩
  | single k =>
    exact ⟨⟨k, ""⟩, by
      simp [resolveExceptions, ExcFilterParam.isFalsy, excMatches,
        ExcFilterParam.kinds, ExcKind.isSubclass_self]⟩
  | tuple ks =>
    cases ks with
    | nil => exact ⟨⟨.exception, ""⟩, by decide⟩
    | cons k ks =>
      exact ⟨⟨k, ""⟩, by
        simp [resolveExceptions, ExcFilterParam.isFalsy, excMatches,
          ExcFilterParam.kinds, ExcKind.isSubclass_self]⟩

/-- C2: an exception not matching the resolved filter propagates unchanged
from both decorated variants, with no report built and no dispatch
attempted. -/
theorem claim2_nonmatching_passthrough :
    ∀ {α β : Type} (p : ExcFilterParam) (header : Option String)
      (aa : Bool) (fn : String) (f : α → PyResult β)
      (dout : Report → Option Exc) (x : α) (e : Exc),
    f x = .raised e → excMatches (resolveExceptions p) e = false →
    (wrapper p header aa fn f dout x).result = .raised e ∧
    (wrapper p header aa fn f dout x).events = [.callFunc] ∧
    (asyncWrapper p header aa fn f dout x).result = .raised e ∧
    (asyncWrapper p header aa fn f dout x).events = [.callFunc] := by
  intro α β p header aa fn f dout x e hf hm
  simp [wrapper, asyncWrapper, hf, hm]

/-- Witness for C2: with the filter `KeyError`, a raised `ValueError`
passes through both variants with an event trace of just the call. -/
theorem claim2_witness :
    (wrapper (.single .keyError) none false "f"
      (fun _ : Unit => (PyResult.raised ⟨.valueError, "boom"⟩ : PyResult Nat))
      (fun _ => none) ()).result = .raised ⟨.valueError, "boom"⟩ ∧
    (asyncWrapper (.single .keyError) none false "f"
      (fun _ : Unit => (PyResult.raised ⟨.valueError, "boom"⟩ : PyResult Nat))
      (fun _ => none) ()).events = [.callFunc] := by
  have h := claim2_nonmatching_passthrough (.single .keyError) none false "f"
    (fun _ : Unit => (PyResult.raised ⟨.valueError, "boom"⟩ : PyResult Nat))
    (fun _ => none) () ⟨.valueError, "boom"⟩ rfl (by decide)
  exact ⟨h.1, h.2.2.2⟩

/-- C4: in every trace of the async variant, a re-raise of the original
exception occurs only strictly after the awaited dispatch attempt has
completed — the coroutine never re-raises while delivery is pending. -/
theorem claim4_reraise_after_dispatch :
    ∀ {α β : Type} (p : ExcFilterParam) (header : Option String)
      (aa : Bool) (fn : String) (f : α → PyResult β)
      (dout : Report → Option Exc) (x : α),
    reraiseOnlyAfterDispatch (asyncWrapper p header aa fn f dout x).events = true := by
  intro α β p header aa fn f dout x
  unfold asyncWrapper
  cases f x with
  | ok v => rfl
  | raised exc =>
    cases hm : excMatches (resolveExceptions p) exc with
    | false => simp [hm, reraiseOnlyAfterDispatch, reraiseAfterDispatchAux]
    | true =>
      simp only [hm, if_true]
      cases dout (reportMaker (formatExc exc) (some fn) header aa) <;> rfl

/-- C1 counterexample: with the default filter, a wrapped callable raising
a `ValueError` and a dispatch attempt that itself raises a `ConfigError`
(for example, no Telegram token is configured), the `raise exc` statement
is never reached and the caller observes the `ConfigError` — not an
exception identical in kind and message to the original. -/
theorem claim1_counterexample :
    (wrapper .nil none false "f"
      (fun _ : Unit => (PyResult.raised ⟨.valueError, "boom"⟩ : PyResult Nat))
      (fun _ => some ⟨.configError, "Telegram token not found"⟩) ()).result
      = .raised ⟨.configError, "Telegram token not found"⟩ ∧
    (wrapper .nil none false "f"
      (fun _ : Unit => (PyResult.raised ⟨.valueError, "boom"⟩ : PyResult Nat))
      (fun _ => some ⟨.configError, "Telegram token not found"⟩) ()).result
      ≠ .raised ⟨.valueError, "boom"⟩ := by
  exact ⟨rfl, by decide⟩

/-- C1 amended: when the raised exception matches the filter and the
dispatch attempt completes without raising, both decorated variants
re-raise the original exception object; when the dispatch attempt itself
raises, that dispatch error propagates to the caller instead and the
original exception is not re-raised. -/
theorem claim1_amended :
    ∀ {α β : Type} (p : ExcFilterParam) (header : Option String)
      (aa : Bool) (fn : String) (f : α → PyResult β)
      (dout : Report → Option Exc) (x : α) (e : Exc),
    f x = .raised e → excMatches (resolveExceptions p) e = true →
    (dout (reportMaker (formatExc e) (some fn) header aa) = none →
      (wrapper p header aa fn f dout x).result = .raised e ∧
      (asyncWrapper p header aa fn f dout x).result = .raised e) ∧
    (∀ e2 : Exc,
      dout (reportMaker (formatExc e) (some fn) header aa) = some e2 →
      (wrapper p header aa fn f dout x).result = .raised e2 ∧
      (asyncWrapper p header aa fn f dout x).result = .raised e2) := by
  intro α β p header aa fn f dout x e hf hm
  constructor
  · intro hd
    simp [wrapper, asyncWrapper, hf, hm, hd]
  · intro e2 hd
    simp [wrapper, asyncWrapper, hf, hm, hd]

/-- Witness for the amended C1: with the default filter and successful
dispatch, both variants re-raise the original `ValueError`. -/
theorem claim1_witness :
    (wrapper .nil none false "f"
      (fun _ : Unit => (PyResult.raised ⟨.valueError, "boom"⟩ : PyResult Nat))
      (fun _ => none) ()).result = .raised ⟨.valueError, "boom"⟩ ∧
    (asyncWrapper .nil none false "f"
      (fun _ : Unit => (PyResult.raised ⟨.valueError, "boom"⟩ : PyResult Nat))
      (fun _ => none) ()).result = .raised ⟨.valueError, "boom"⟩ := by
  exact (claim1_amended .nil none false "f"
    (fun _ : Unit => (PyResult.raised ⟨.valueError, "boom"⟩ : PyResult Nat))
    (fun _ => none) () ⟨.valueError, "boom"⟩ rfl (by decide)).1 rfl

/-- C3 counterexample: under the default filter (argument absent), a
wrapped callable raising `KeyboardInterrupt` — a `BaseException` kind that
does not subclass `Exception` — is not intercepted: the exception
propagates with no report built and no dispatch attempted. -/
theorem claim3_counterexample :
    (wrapper .nil none false "f"
      (fun _ : Unit => (PyResult.raised ⟨.keyboardInterrupt, "stop"⟩ : PyResult Nat))
      (fun _ => none) ()).result = .raised ⟨.keyboardInterrupt, "stop"⟩ ∧
    (wrapper .nil none false "f"
      (fun _ : Unit => (PyResult.raised ⟨.keyboardInterrupt, "stop"⟩ : PyResult Nat))
      (fun _ => none) ()).events = [Event.callFunc] ∧
    dispatched (wrapper .nil none false "f"
      (fun _ : Unit => (PyResult.raised ⟨.keyboardInterrupt, "stop"⟩ : PyResult Nat))
      (fun _ => none) ()).events = false := by
  decide

/-- C3 amended: an absent `exceptions` argument resolves to the class
`Exception`, so both variants intercept and report every raised exception
whose class subclasses `Exception` — but not the `BaseException`-only
kinds. -/
theorem claim3_amended :
    resolveExceptions .nil = .single .exception ∧
    ∀ {α β : Type} (header : Option String) (aa : Bool) (fn : String)
      (f : α → PyResult β) (dout : Report → Option Exc) (x : α) (e : Exc),
    f x = .raised e → e.kind.isSubclass .exception = true →
    builtReport (wrapper .nil header aa fn f dout x).events = true ∧
    dispatched (wrapper .nil header aa fn f dout x).events = true ∧
    builtReport (asyncWrapper .nil header aa fn f dout x).events = true ∧
    dispatched (asyncWrapper .nil header aa fn f dout x).events = true := by
  refine ⟨rfl, ?_⟩
  intro α β header aa fn f dout x e hf he
  have hm : excMatches (resolveExceptions .nil) e = true := by
    simp [resolveExceptions, ExcFilterParam.isFalsy, excMatches,
      ExcFilterParam.kinds, he]
  cases hd : dout (reportMaker (formatExc e) (some fn) header aa) <;>
    simp [wrapper, asyncWrapper, hf, hm, hd, builtReport, dispatched,
      Event.isBuild, Event.isDispatch]

/-- Witness for the amended C3: a raised `ValueError` is built into a
report and dispatched by both variants under the default filter. -/
theorem claim3_witness :
    builtReport (wrapper .nil none false "f"
      (fun _ : Unit => (PyResult.raised ⟨.valueError, "boom"⟩ : PyResult Nat))
      (fun _ => none) ()).events = true ∧
    dispatched (asyncWrapper .nil none false "f"
      (fun _ : Unit => (PyResult.raised ⟨.valueError, "boom"⟩ : PyResult Nat))
      (fun _ => none) ()).events = true := by
  have h := claim3_amended.2 none false "f"
    (fun _ : Unit => (PyResult.raised ⟨.valueError, "boom"⟩ : PyResult Nat))
    (fun _ => none) () ⟨.valueError, "boom"⟩ rfl (by decide)
  exact ⟨h.1, h.2.2.2⟩

/-- C5: the report builder (modelled from the spec, the `Report` class not
being among the provided sources) is a pure function of its inputs; with
`as_attached` false the report has no attachment and a non-empty body
containing the traceback text; with `as_attached` true the attachment
equals the full traceback text and the caption body — being shorter than
the traceback, as a caption is in every non-degenerate case — does not
contain it. -/
theorem claim5_report_builder :
    ∀ (tback : String) (funcName header : Option String),
    ((reportMaker tback funcName header false).attach = none ∧
     (reportMaker tback funcName header false).report ≠ "" ∧
     strContains (reportMaker tback funcName header false).report tback) ∧
    ((reportMaker tback funcName header true).attach = some tback ∧
     ((reportMaker tback funcName header true).report.length < tback.length →
      ¬ strContains (reportMaker tback funcName header true).report tback)) := by
  intro tback funcName header
  refine ⟨⟨rfl, ?_, ?_⟩, rfl, ?_⟩
  · intro h
    have h2 := congrArg String.length h
    simp only [reportMaker, Report.make, Bool.false_eq_true, if_false,
      String.length_append] at h2
    have h3 : ("\n\n" : String).length = 2 := rfl
    have h4 : ("" : String).length = 0 := rfl
    omega
  · show tback.data <:+: _
    simp only [reportMaker, Report.make, Bool.false_eq_true, if_false,
      String.data_append]
    exact (List.suffix_append _ _).isInfix
  · intro hlen hcon
    have hle := List.IsInfix.length_le hcon
    have e1 : ∀ s : String, s.length = s.data.length := fun _ => rfl
    rw [← e1, ← e1] at hle
    omega

/-- Witness for C5 at a realistic traceback: the attachment equals the
traceback and the caption body does not contain it. -/
theorem claim5_witness :
    (reportMaker "Traceback (most recent call last):\n  ...\nValueError: boom"
      none (some "err") true).attach
      = some "Traceback (most recent call last):\n  ...\nValueError: boom" ∧
    ¬ strContains
      (reportMaker "Traceback (most recent call last):\n  ...\nValueError: boom"
        none (some "err") true).report
      "Traceback (most recent call last):\n  ...\nValueError: boom" := by
  have h := claim5_report_builder
    "Traceback (most recent call last):\n  ...\nValueError: boom" none (some "err")
  exact ⟨h.2.1, h.2.2 (by decide)⟩

end EasyNotifyer
